import Mathlib

/-!
Verification of the LLMOps notebooks' glue logic against their design
specification.

The development shallowly embeds the operational cells of the notebooks:

* the endpoint-dispatch cells (list tuned models, `random.choice`, load the
  selected model, `predict`), with the random source and the remote predict
  operation made explicit parameters;
* the prompt-template cells of both the deployment notebook and the data
  preparation notebook;
* the safety-attribute / citation read accessors over a prediction result;
* the oversized-query `try/except` cell of the data preparation notebook;
* the JSON-Lines serialization of the tuning records;
* the 80/20 `train_test_split` of the prepared dataset.

Remote services (model hosting, warehouse, the PRNG inside third-party
libraries) are external to the repository; they enter as explicit oracle
parameters or, where the specification fixes their contract, as definitions
modelled from the spec and marked as such.
-/

namespace LLMOps

/-- Safety assessment carried by a prediction response: the `blocked` flag and
the named numeric scores (probability, severity, ...) found under the
response's `safetyAttributes` key. -/
structure SafetyAttributes where
  blocked : Bool
  scores : List (String × ℚ)
  deriving DecidableEq, Repr

/-- Citation metadata carried by a prediction response: the (possibly empty)
sequence of source references found under the response's `citationMetadata`
key. -/
structure CitationMetadata where
  citations : List String
  deriving DecidableEq, Repr

/-- A structured prediction result: generated content plus safety assessment
and citation metadata, as read out of `response._prediction_response[0][0]`
in the deployment notebook. -/
structure PredictionResult where
  content : String
  safetyAttributes : SafetyAttributes
  citationMetadata : CitationMetadata
  deriving DecidableEq, Repr

/-- The dispatcher's error taxonomy from the spec: `EmptyRegistry` when no
endpoint is available, `UpstreamError` when the selected endpoint's predict
call fails. -/
inductive DispatchError where
  | EmptyRegistry
  | UpstreamError
  deriving DecidableEq, Repr

instance {ε α : Type} [DecidableEq ε] [DecidableEq α] : DecidableEq (Except ε α) :=
  fun x y =>
    match x, y with
    | .error a, .error b => decidable_of_iff (a = b) (by simp)
    | .error _, .ok _ => isFalse (by simp)
    | .ok _, .error _ => isFalse (by simp)
    | .ok a, .ok b => decidable_of_iff (a = b) (by simp)

/-- `random.choice` over the endpoint registry (deployment notebook, step 4:
`tuned_model_select = random.choice(list_tuned_models)`), with the random
source made explicit: `k` is the index drawn by the generator, uniform on
`0 .. length-1` for a uniform source. On the empty sequence `random.choice`
raises, which the spec names `EmptyRegistry`. -/
def randomChoice (registry : List String) (k : Nat) : Except DispatchError String :=
  if h : registry.length = 0 then
    .error .EmptyRegistry
  else
    .ok (registry.get ⟨k % registry.length, Nat.mod_lt _ (Nat.pos_of_ne_zero h)⟩)

/-- One dispatch: select a tuned model at random, send the prompt to its
predict operation, and surface the outcome (deployment notebook, steps 4-6).
`predict` is the remote endpoint operation, an oracle parameter; the second
component of the result records every predict call issued during the
dispatch, as `(endpoint, prompt)` pairs. -/
def dispatch (registry : List String) (k : Nat) (prompt : String)
    (predict : String → String → Except Unit PredictionResult) :
    Except DispatchError PredictionResult × List (String × String) :=
  match randomChoice registry k with
  | .error e => (.error e, [])
  | .ok endpoint =>
    match predict endpoint prompt with
    | .error _ => (.error .UpstreamError, [(endpoint, prompt)])
    | .ok r => (.ok r, [(endpoint, prompt)])

/-- The notebook session state touched by the dispatch cells: the registry
read in step 3 and the variables assigned by steps 4 and 6. -/
structure SessionState where
  list_tuned_models : List String
  tuned_model_select : Option String
  response : Option PredictionResult
  deriving DecidableEq, Repr

/-- Running the dispatch cells (steps 4-6) over the session state: on success
the selected model name and the response are assigned; a raise in either cell
aborts the run with the corresponding error. -/
def runDispatchSession (st : SessionState) (k : Nat) (prompt : String)
    (predict : String → String → Except Unit PredictionResult) :
    Except DispatchError SessionState :=
  match randomChoice st.list_tuned_models k with
  | .error e => .error e
  | .ok sel =>
    match predict sel prompt with
    | .error _ => .error .UpstreamError
    | .ok r => .ok { st with tuned_model_select := some sel, response := some r }

/-- On a registry of distinct identifiers, the random draws that select the
`i`-th identifier are exactly the singleton `{i}` of the uniform sample space
`range length`. -/
theorem randomChoice_filter_eq (registry : List String) (hnd : registry.Nodup)
    (i : Fin registry.length) :
    (Finset.range registry.length).filter
      (fun k => randomChoice registry k = .ok (registry.get i)) = {(i : Nat)} := by
  ext k
  simp only [Finset.mem_filter, Finset.mem_range, Finset.mem_singleton]
  have hlen : registry.length ≠ 0 := Nat.pos_iff_ne_zero.mp i.pos
  constructor
  · rintro ⟨hk, hch⟩
    unfold randomChoice at hch
    rw [dif_neg hlen] at hch
    have hget := Except.ok.inj hch
    have hfin : (⟨k % registry.length, Nat.mod_lt _ (Nat.pos_of_ne_zero hlen)⟩ :
        Fin registry.length) = i := hnd.get_inj_iff.mp hget
    have : k % registry.length = (i : Nat) := congrArg Fin.val hfin
    rwa [Nat.mod_eq_of_lt hk] at this
  · rintro rfl
    refine ⟨i.isLt, ?_⟩
    unfold randomChoice
    rw [dif_neg hlen]
    congr 1
    congr 1
    exact Fin.ext (Nat.mod_eq_of_lt i.isLt)

/-- C1: dispatch against the empty registry fails with `EmptyRegistry`, and
the trace of predict calls issued is empty — endpoint selection raises before
any predict operation is reached, whatever the random draw, the prompt and
the upstream behaviour. -/
theorem dispatch_empty_registry (k : Nat) (prompt : String)
    (predict : String → String → Except Unit PredictionResult) :
    dispatch [] k prompt predict = (.error .EmptyRegistry, []) := by
  simp [dispatch, randomChoice]

/-- C2: on a non-empty registry of N distinct identifiers, with the random
source modelled as an explicit index uniform on `range N`: (a) every draw
selects an element of the registry; (b) each identifier is selected with
probability exactly 1/N; (c) two distinct calls, drawing from the product
sample space, are independent — the joint probability of any pair of
selections factorizes into the product of the marginals. -/
theorem dispatch_uniform_independent (registry : List String)
    (hne : registry ≠ []) (hnd : registry.Nodup) :
    (∀ k : Nat, ∃ e ∈ registry, randomChoice registry k = .ok e) ∧
    (∀ i : Fin registry.length,
      ((((Finset.range registry.length).filter
          (fun k => randomChoice registry k = .ok (registry.get i))).card : ℚ)
        / ((Finset.range registry.length).card : ℚ))
        = 1 / (registry.length : ℚ)) ∧
    (∀ i j : Fin registry.length,
      (((((Finset.range registry.length) ×ˢ (Finset.range registry.length)).filter
          (fun p => randomChoice registry p.1 = .ok (registry.get i) ∧
            randomChoice registry p.2 = .ok (registry.get j))).card : ℚ)
        / ((((Finset.range registry.length) ×ˢ (Finset.range registry.length)).card : ℚ)))
        = ((((Finset.range registry.length).filter
            (fun k => randomChoice registry k = .ok (registry.get i))).card : ℚ)
            / ((Finset.range registry.length).card : ℚ))
          * ((((Finset.range registry.length).filter
            (fun k => randomChoice registry k = .ok (registry.get j))).card : ℚ)
            / ((Finset.range registry.length).card : ℚ))) := by
  refine ⟨?_, ?_, ?_⟩
  · intro k
    have hlen : registry.length ≠ 0 := by
      intro h
      exact hne (List.length_eq_zero.mp h)
    refine ⟨registry.get ⟨k % registry.length, Nat.mod_lt _ (Nat.pos_of_ne_zero hlen)⟩,
      registry.get_mem _ _, ?_⟩
    unfold randomChoice
    rw [dif_neg hlen]
  · intro i
    rw [randomChoice_filter_eq registry hnd i]
    simp
  · intro i j
    have hprod : ((Finset.range registry.length) ×ˢ (Finset.range registry.length)).filter
        (fun p => randomChoice registry p.1 = .ok (registry.get i) ∧
          randomChoice registry p.2 = .ok (registry.get j))
        = ((Finset.range registry.length).filter
            (fun k => randomChoice registry k = .ok (registry.get i))) ×ˢ
          ((Finset.range registry.length).filter
            (fun k => randomChoice registry k = .ok (registry.get j))) :=
      Finset.filter_product (fun k => randomChoice registry k = .ok (registry.get i))
        (fun k => randomChoice registry k = .ok (registry.get j))
    rw [hprod, Finset.card_product, Finset.card_product,
      randomChoice_filter_eq registry hnd i, randomChoice_filter_eq registry hnd j]
    push_cast
    rw [div_mul_div_comm]

/-- Concrete check of C2 on the three-endpoint registry of the spec's test
scenario. -/
theorem dispatch_uniform_independent_witness :
    ((["a", "b", "c"] : List String) ≠ [] ∧ (["a", "b", "c"] : List String).Nodup) ∧
    ((∀ k : Nat, ∃ e ∈ (["a", "b", "c"] : List String),
        randomChoice ["a", "b", "c"] k = .ok e) ∧
    (∀ i : Fin (["a", "b", "c"] : List String).length,
      ((((Finset.range (["a", "b", "c"] : List String).length).filter
          (fun k => randomChoice ["a", "b", "c"] k =
            .ok ((["a", "b", "c"] : List String).get i))).card : ℚ)
        / ((Finset.range (["a", "b", "c"] : List String).length).card : ℚ))
        = 1 / ((["a", "b", "c"] : List String).length : ℚ)) ∧
    (∀ i j : Fin (["a", "b", "c"] : List String).length,
      (((((Finset.range (["a", "b", "c"] : List String).length) ×ˢ
            (Finset.range (["a", "b", "c"] : List String).length)).filter
          (fun p => randomChoice ["a", "b", "c"] p.1 =
              .ok ((["a", "b", "c"] : List String).get i) ∧
            randomChoice ["a", "b", "c"] p.2 =
              .ok ((["a", "b", "c"] : List String).get j))).card : ℚ)
        / ((((Finset.range (["a", "b", "c"] : List String).length) ×ˢ
            (Finset.range (["a", "b", "c"] : List String).length)).card : ℚ)))
        = ((((Finset.range (["a", "b", "c"] : List String).length).filter
            (fun k => randomChoice ["a", "b", "c"] k =
              .ok ((["a", "b", "c"] : List String).get i))).card : ℚ)
            / ((Finset.range (["a", "b", "c"] : List String).length).card : ℚ))
          * ((((Finset.range (["a", "b", "c"] : List String).length).filter
            (fun k => randomChoice ["a", "b", "c"] k =
              .ok ((["a", "b", "c"] : List String).get j))).card : ℚ)
            / ((Finset.range (["a", "b", "c"] : List String).length).card : ℚ)))) :=
  ⟨⟨by decide, by decide⟩,
    dispatch_uniform_independent ["a", "b", "c"] (by decide) (by decide)⟩

/-- C4: when the selected endpoint's predict call fails, dispatch surfaces
`UpstreamError` unchanged to the immediate caller, and the trace of predict
calls is exactly the one failing call — no retry, no fallback dispatch to
another endpoint, no further prediction call after the failure. -/
theorem dispatch_upstream_failure (registry : List String) (k : Nat) (prompt : String)
    (predict : String → String → Except Unit PredictionResult) (endpoint : String)
    (hsel : randomChoice registry k = .ok endpoint)
    (hfail : predict endpoint prompt = .error ()) :
    dispatch registry k prompt predict = (.error .UpstreamError, [(endpoint, prompt)]) := by
  simp [dispatch, hsel, hfail]

/-- Concrete check of C4 on a one-endpoint registry whose upstream always
fails. -/
theorem dispatch_upstream_failure_witness :
    (randomChoice ["a"] 0 = .ok "a" ∧
      (fun (_ _ : String) => (.error () : Except Unit PredictionResult)) "a" "p"
        = .error ()) ∧
    dispatch ["a"] 0 "p" (fun _ _ => .error ())
      = (.error .UpstreamError, [("a", "p")]) :=
  ⟨⟨by decide, rfl⟩, dispatch_upstream_failure ["a"] 0 "p" _ "a" (by decide) rfl⟩

/-- C5: on a successful dispatch the caller receives exactly the Prediction
Result produced by the selected endpoint's predict operation — no field
added, removed or modified — and the dispatch mutates no local state beyond
the two notebook variables it assigns: the endpoint registry after the call
equals the registry before it. -/
theorem dispatch_returns_result_unchanged (st : SessionState) (k : Nat) (prompt : String)
    (predict : String → String → Except Unit PredictionResult)
    (sel : String) (r : PredictionResult)
    (hsel : randomChoice st.list_tuned_models k = .ok sel)
    (hok : predict sel prompt = .ok r) :
    (dispatch st.list_tuned_models k prompt predict).1 = .ok r ∧
    ∃ st', runDispatchSession st k prompt predict = .ok st' ∧
      st'.response = some r ∧
      st'.list_tuned_models = st.list_tuned_models := by
  constructor
  · simp [dispatch, hsel, hok]
  · refine ⟨{ st with tuned_model_select := some sel, response := some r }, ?_, rfl, rfl⟩
    simp [runDispatchSession, hsel, hok]

/-- Concrete check of C5 on a one-endpoint registry with a fixed successful
upstream result. -/
theorem dispatch_returns_result_unchanged_witness :
    (randomChoice (SessionState.mk ["a"] none none).list_tuned_models 0 = .ok "a" ∧
      (fun (_ _ : String) =>
          (.ok ⟨"ans", ⟨false, []⟩, ⟨[]⟩⟩ : Except Unit PredictionResult)) "a" "p"
        = .ok (⟨"ans", ⟨false, []⟩, ⟨[]⟩⟩ : PredictionResult)) ∧
    ((dispatch (SessionState.mk ["a"] none none).list_tuned_models 0 "p"
        (fun _ _ => .ok ⟨"ans", ⟨false, []⟩, ⟨[]⟩⟩)).1
      = .ok (⟨"ans", ⟨false, []⟩, ⟨[]⟩⟩ : PredictionResult) ∧
    ∃ st', runDispatchSession (SessionState.mk ["a"] none none) 0 "p"
        (fun _ _ => .ok ⟨"ans", ⟨false, []⟩, ⟨[]⟩⟩) = .ok st' ∧
      st'.response = some (⟨"ans", ⟨false, []⟩, ⟨[]⟩⟩ : PredictionResult) ∧
      st'.list_tuned_models = (SessionState.mk ["a"] none none).list_tuned_models) :=
  ⟨⟨by decide, rfl⟩,
    dispatch_returns_result_unchanged ⟨["a"], none, none⟩ 0 "p" _ "a" _ (by decide) rfl⟩

/-- The training-time instruction constant of the deployment notebook
(step 9). The Python line continuations glue the first three lines with no
intervening characters; the unescaped line end after `Question:` contributes
the one newline. -/
def INSTRUCTION : String :=
  "Please answer the following Stackoverflow question on Python." ++
    "Answer it like you are a developer answering Stackoverflow questions." ++
    "Question:\n"

/-- The prompt template of the deployment notebook (step 9): the f-string
puts a leading newline, the instruction, a single space, the question, and a
trailing newline. -/
def render (instruction question : String) : String :=
  "\n" ++ instruction ++ " " ++ question ++ "\n"

/-- The instruction template of the data preparation notebook (step 7): here
the first line continuation keeps an explicit trailing space, the second line
ends unescaped, and a blank line separates the lead-in from
`Stackoverflow question:`. -/
def INSTRUCTION_TEMPLATE : String :=
  "Please answer the following Stackoverflow question on Python. " ++
    "Answer it like you are a developer answering Stackoverflow questions.\n" ++
    "\nStackoverflow question:\n"

/-- Step 7 of the data preparation notebook: the instructed input column is
the instruction template joined to the question text with a single space. -/
def input_text_instruct (input_text : String) : String :=
  INSTRUCTION_TEMPLATE ++ " " ++ input_text

/-- C3 fails as stated: the deployment notebook's template does not render
instruction, newline, question with no other characters — at
instruction `"A"` and question `"B"` it produces `"\nA B\n"`, not `"A\nB"`. -/
theorem render_not_bare_newline_template :
    render "A" "B" ≠ "A" ++ "\n" ++ "B" ∧ render "A" "B" = "\nA B\n" := by
  constructor
  · decide
  · rfl

/-- C3 (amended): for every instruction and question the rendered prompt
equals the fixed training-time template of the code — a leading newline, the
instruction, a single space, the question, a trailing newline; likewise the
data preparation notebook joins its instruction template and the question
with a single space, adding nothing else. -/
theorem render_fixed_template (instruction question : String) :
    render instruction question = "\n" ++ instruction ++ " " ++ question ++ "\n" ∧
    input_text_instruct question = INSTRUCTION_TEMPLATE ++ " " ++ question :=
  ⟨rfl, rfl⟩

/-- C9: prompt rendering is a deterministic function — two render calls on
identical inputs return equal strings, and in particular byte-identical
UTF-8 encodings. -/
theorem render_deterministic (i1 q1 i2 q2 : String) (hi : i1 = i2) (hq : q1 = q2) :
    render i1 q1 = render i2 q2 ∧
    (render i1 q1).toUTF8 = (render i2 q2).toUTF8 := by
  subst hi
  subst hq
  exact ⟨rfl, rfl⟩

/-- Concrete check of C9 on the spec's scenario inputs. -/
theorem render_deterministic_witness :
    ("Answer the question." = "Answer the question." ∧
      "What is 2+2?" = "What is 2+2?") ∧
    (render "Answer the question." "What is 2+2?"
        = render "Answer the question." "What is 2+2?" ∧
      (render "Answer the question." "What is 2+2?").toUTF8
        = (render "Answer the question." "What is 2+2?").toUTF8) :=
  ⟨⟨rfl, rfl⟩, render_deterministic _ _ _ _ rfl rfl⟩

/-- Step 10 of the deployment notebook: the blocked flag is read directly
off the response's safety attributes. -/
def PredictionResult.is_blocked (r : PredictionResult) : Bool :=
  r.safetyAttributes.blocked

/-- Step 11 of the deployment notebook: the citation list is read directly
off the response's citation metadata. -/
def PredictionResult.citations (r : PredictionResult) : List String :=
  r.citationMetadata.citations

/-- C8: both accessors are pure pass-throughs over the Prediction Result:
`is_blocked` returns exactly the underlying blocked flag (so it is true
whenever the result is blocked) and `citations` returns exactly the
underlying citation sequence, possibly empty — no transformation, validation
or filtering. -/
theorem accessors_pass_through (r : PredictionResult) :
    r.is_blocked = r.safetyAttributes.blocked ∧
    r.citations = r.citationMetadata.citations :=
  ⟨rfl, rfl⟩

/-- A query result exceeding memory bounds (data preparation notebook,
step 5). -/
inductive OversizedResultError where
  | oversized (message : String)
  deriving DecidableEq, Repr

/-- The notebook variables in scope around the oversized-query cell: the
DataFrame variable the load would assign, and the printed output log. -/
structure PrepState (α : Type) where
  stack_overflow_df : Option α
  output_log : List String
  deriving DecidableEq, Repr

/-- Step 5 of the data preparation notebook: the whole-table load wrapped in
`try/except`. A successful result is assigned to the DataFrame variable; an
oversized result is caught locally, reported on the output log, and the cell
returns normally. -/
def loadQueryAll {α : Type} (st : PrepState α)
    (res : Except OversizedResultError α) : PrepState α :=
  match res with
  | .ok df => { st with stack_overflow_df := some df }
  | .error _ =>
    { st with output_log :=
        st.output_log ++ ["The DataFrame is too large to load into memory."] }

/-- C7: an oversized query result is caught locally and reported, not fatal
to the process: the cell still returns a state — execution continues past the
failed load — the failed result variable is untouched, and nothing besides
the appended report changes. -/
theorem oversized_caught_locally {α : Type} (st : PrepState α)
    (e : OversizedResultError) :
    loadQueryAll st (.error e)
      = { st with output_log :=
            st.output_log ++ ["The DataFrame is too large to load into memory."] } ∧
    (loadQueryAll st (.error e)).stack_overflow_df = st.stack_overflow_df :=
  ⟨rfl, rfl⟩

/-- A tuning record: the two columns kept for the JSON-Lines file in step
9.2 of the data preparation notebook. -/
structure QARecord where
  input_text_instruct : String
  output_text : String
  deriving DecidableEq, Repr

/-- JSON string escaping as emitted by the serializer: quote, backslash and
the control characters newline, carriage return and tab take their two-char
escapes; every other character passes through. -/
def escapeChar (c : Char) : List Char :=
  if c = '\"' then ['\\', '\"']
  else if c = '\\' then ['\\', '\\']
  else if c = '\n' then ['\\', 'n']
  else if c = '\r' then ['\\', 'r']
  else if c = '\t' then ['\\', 't']
  else [c]

/-- Escape a whole string, character by character. -/
def escapeString : List Char → List Char
  | [] => []
  | c :: cs => escapeChar c ++ escapeString cs

/-- Leading literal of a serialized record: open brace, first column name,
colon, opening value quote. -/
def recLit1 : List Char := '\x7b' :: ("\"input_text_instruct\":\"".data)

/-- Middle literal of a serialized record: comma, second column name, colon,
opening value quote (the closing quote of the first value precedes it). -/
def recLit2 : List Char := ',' :: ("\"output_text\":\"".data)

/-- One record as a JSON object, the two string fields escaped, exactly as
the record-oriented serializer prints it. -/
def encodeRecord (r : QARecord) : List Char :=
  recLit1 ++ (escapeString r.input_text_instruct.data ++
    '\"' :: (recLit2 ++ (escapeString r.output_text.data ++ ['\"', '\x7d'])))

/-- Join serialized records with single newlines: the `lines=True` layout,
one record per line. -/
def joinLines : List (List Char) → List Char
  | [] => []
  | [l] => l
  | l :: ls => l ++ '\n' :: joinLines ls

/-- Step 9.2 of the data preparation notebook:
`train[cols].to_json(orient="records", lines=True)` — each record a JSON
object on its own line. -/
def to_json_lines (rs : List QARecord) : List Char :=
  joinLines (rs.map encodeRecord)

/-- Inverse of `escapeChar` on the character following a backslash. -/
def unescapeChar (e : Char) : Option Char :=
  if e = '\"' then some '\"'
  else if e = '\\' then some '\\'
  else if e = 'n' then some '\n'
  else if e = 'r' then some '\r'
  else if e = 't' then some '\t'
  else none

/-- Parse a JSON string body after its opening quote: collect characters up
to the unescaped closing quote, decoding escapes; returns the decoded
content and the input after the closing quote. -/
def parseStringBody : List Char → Option (List Char × List Char)
  | [] => none
  | c :: rest =>
    if c = '\"' then some ([], rest)
    else if c = '\\' then
      match rest with
      | [] => none
      | e :: rest2 =>
        match unescapeChar e with
        | none => none
        | some d => (parseStringBody rest2).map (fun p => (d :: p.1, p.2))
    else (parseStringBody rest).map (fun p => (c :: p.1, p.2))

/-- Consume an expected literal from the front of the input. -/
def expectLit : List Char → List Char → Option (List Char)
  | [], l => some l
  | _ :: _, [] => none
  | p :: ps, c :: cs => if p = c then expectLit ps cs else none

/-- Parse one line as a record object: the two quoted string fields in the
serializer's layout, closed by the final brace. -/
def parseRecord (l : List Char) : Option QARecord :=
  (expectLit recLit1 l).bind fun l1 =>
    (parseStringBody l1).bind fun p1 =>
      (expectLit recLit2 p1.2).bind fun l3 =>
        (parseStringBody l3).bind fun p2 =>
          if p2.2 = ['\x7d'] then some ⟨String.mk p1.1, String.mk p2.1⟩
          else none

/-- Split the file into lines at newline characters. -/
def splitLines : List Char → List (List Char)
  | [] => [[]]
  | c :: rest =>
    if c = '\n' then [] :: splitLines rest
    else
      match splitLines rest with
      | [] => [[c]]
      | line :: rem => (c :: line) :: rem

/-- Parse every line as one record; any malformed line rejects the file. -/
def parseAllRecords : List (List Char) → Option (List QARecord)
  | [] => some []
  | l :: ls =>
    match parseRecord l with
    | none => none
    | some r =>
      match parseAllRecords ls with
      | none => none
      | some rs => some (r :: rs)

/-- Modelled from the spec: the JSON-Lines reader of the round-trip property
("writing N records to JSON-Lines and reading them back"). The repository
only writes the file — the reader belongs to the orchestration service that
consumes it — so the reader is modelled from the spec's persisted-artifact
contract: one record object per line, fields `input_text_instruct` and
`output_text`; an empty file holds no records. -/
def from_json_lines (l : List Char) : Option (List QARecord) :=
  if l = [] then some [] else parseAllRecords (splitLines l)

/-- Escaping never emits a raw newline. -/
theorem escapeChar_no_newline (c : Char) : '\n' ∉ escapeChar c := by
  unfold escapeChar
  split_ifs with h1 h2 h3 h4 h5
  · decide
  · decide
  · decide
  · decide
  · decide
  · simp only [List.mem_singleton]
    exact fun e => h3 e.symm

/-- A fully escaped string contains no raw newline. -/
theorem escapeString_no_newline (s : List Char) : '\n' ∉ escapeString s := by
  induction s with
  | nil => simp [escapeString]
  | cons c cs ih =>
    simp only [escapeString, List.mem_append]
    rintro (h | h)
    · exact escapeChar_no_newline c h
    · exact ih h

/-- A serialized record occupies a single line: it contains no newline. -/
theorem encodeRecord_no_newline (r : QARecord) : '\n' ∉ encodeRecord r := by
  intro h
  rcases List.mem_append.mp h with h | h
  · exact (by decide : '\n' ∉ recLit1) h
  rcases List.mem_append.mp h with h | h
  · exact escapeString_no_newline _ h
  rcases List.mem_cons.mp h with h | h
  · exact (by decide : ('\n' : Char) ≠ '\"') h
  rcases List.mem_append.mp h with h | h
  · exact (by decide : '\n' ∉ recLit2) h
  rcases List.mem_append.mp h with h | h
  · exact escapeString_no_newline _ h
  · exact (by decide : '\n' ∉ (['\"', '\x7d'] : List Char)) h

/-- The string parser undoes one character's escape. -/
theorem parseStringBody_escape (c : Char) (l : List Char) :
    parseStringBody (escapeChar c ++ l)
      = (parseStringBody l).map (fun p => (c :: p.1, p.2)) := by
  unfold escapeChar
  split_ifs with h1 h2 h3 h4 h5
  · subst h1; rfl
  · subst h2; rfl
  · subst h3; rfl
  · subst h4; rfl
  · subst h5; rfl
  · rw [List.singleton_append]
    conv_lhs => rw [parseStringBody.eq_def]
    dsimp only
    rw [if_neg h1, if_neg h2]

/-- The string parser undoes the escaping of a whole string, stopping at the
closing quote. -/
theorem parseStringBody_encode (s l : List Char) :
    parseStringBody (escapeString s ++ '\"' :: l) = some (s, l) := by
  induction s with
  | nil =>
    rw [show escapeString [] ++ '\"' :: l = '\"' :: l from rfl]
    rw [parseStringBody.eq_def]
    dsimp only
    rw [if_pos rfl]
  | cons c cs ih =>
    rw [escapeString, List.append_assoc, parseStringBody_escape, ih]
    rfl

/-- Consuming a literal that is present succeeds and leaves the rest. -/
theorem expectLit_self (pre l : List Char) : expectLit pre (pre ++ l) = some l := by
  induction pre with
  | nil => rfl
  | cons p ps ih => simp [expectLit, ih]

/-- The line parser inverts the record serializer. -/
theorem parseRecord_encodeRecord (r : QARecord) :
    parseRecord (encodeRecord r) = some r := by
  unfold parseRecord encodeRecord
  rw [expectLit_self, Option.some_bind, parseStringBody_encode, Option.some_bind]
  rw [expectLit_self, Option.some_bind]
  have hsplit : (['\"', '\x7d'] : List Char) = '\"' :: ['\x7d'] := rfl
  rw [hsplit, parseStringBody_encode, Option.some_bind]
  simp

/-- Splitting a newline-free line yields just that line. -/
theorem splitLines_no_newline (l : List Char) (h : '\n' ∉ l) :
    splitLines l = [l] := by
  induction l with
  | nil => rfl
  | cons c cs ih =>
    have hc : ¬ c = '\n' := fun e => h (e ▸ List.mem_cons_self c cs)
    have hcs : '\n' ∉ cs := fun m => h (List.mem_cons_of_mem _ m)
    simp [splitLines, hc, ih hcs]

/-- Splitting walks past one newline-free line and its separator. -/
theorem splitLines_append (l r : List Char) (h : '\n' ∉ l) :
    splitLines (l ++ '\n' :: r) = l :: splitLines r := by
  induction l with
  | nil => simp [splitLines]
  | cons c cs ih =>
    have hc : ¬ c = '\n' := fun e => h (e ▸ List.mem_cons_self c cs)
    have hcs : '\n' ∉ cs := fun m => h (List.mem_cons_of_mem _ m)
    simp [splitLines, hc, ih hcs]

/-- Splitting inverts joining, for a nonempty list of newline-free lines. -/
theorem splitLines_joinLines (ls : List (List Char)) (hne : ls ≠ [])
    (h : ∀ l ∈ ls, '\n' ∉ l) : splitLines (joinLines ls) = ls := by
  induction ls with
  | nil => exact absurd rfl hne
  | cons l ls2 ih =>
    cases ls2 with
    | nil => exact splitLines_no_newline l (h l (List.mem_cons_self l []))
    | cons l2 ls3 =>
      have hstep : joinLines (l :: l2 :: ls3) = l ++ '\n' :: joinLines (l2 :: ls3) := rfl
      rw [hstep, splitLines_append l _ (h l (List.mem_cons_self l _)),
        ih (by simp) (fun x hx => h x (List.mem_cons_of_mem _ hx))]

/-- Parsing every serialized line recovers every record. -/
theorem parseAllRecords_map (rs : List QARecord) :
    parseAllRecords (rs.map encodeRecord) = some rs := by
  induction rs with
  | nil => rfl
  | cons r rs2 ih => simp [parseAllRecords, parseRecord_encodeRecord, ih]

/-- C6: JSON-Lines round trip — serializing any sequence of records (one
record object per line, both string fields escaped) and parsing the
resulting text back yields exactly the original records, field-wise equal. -/
theorem jsonl_round_trip (rs : List QARecord) :
    from_json_lines (to_json_lines rs) = some rs := by
  cases rs with
  | nil => rfl
  | cons r rs2 =>
    have hne : to_json_lines (r :: rs2) ≠ [] := by
      unfold to_json_lines joinLines
      cases rs2 with
      | nil => simp [encodeRecord, recLit1]
      | cons r2 rs3 => simp [encodeRecord, recLit1]
    unfold from_json_lines
    rw [if_neg hne]
    unfold to_json_lines
    rw [splitLines_joinLines _ (by simp) ?hnl]
    case hnl =>
      intro l hl
      obtain ⟨r', _, rfl⟩ := List.mem_map.mp hl
      exact encodeRecord_no_newline r'
    exact parseAllRecords_map _

/-- Modelled from the spec: the seeded shuffle inside
`train_test_split(..., random_state=42)` (data preparation notebook,
step 8.1). The generator itself (numpy's seeded RandomState) lies outside
this repository; the spec only fixes that the seed makes the split
reproducible. It is modelled as a deterministic mixing function of seed and
index used to order the row indices; the properties proved about the split
do not depend on the mixing beyond the ordering being a permutation. -/
def shuffleKey (seed i : Nat) : Nat :=
  (seed * 1103515245 + i * 12345 + 6789) % 2147483648

/-- The shuffled row indices: `range n` reordered by the seeded keys. -/
def permutationOf (seed n : Nat) : List Nat :=
  (List.range n).mergeSort (fun i j => Nat.ble (shuffleKey seed i) (shuffleKey seed j))

/-- sklearn's size computation for `test_size=0.2`: the evaluation set takes
the ceiling of one fifth of the rows. -/
def nTest (n : Nat) : Nat := (n + 4) / 5

/-- The split's index lists, sklearn's ShuffleSplit layout: the first
`nTest n` shuffled indices form the evaluation set, the remainder the train
set. First component: train indices; second: evaluation indices. -/
def splitIndices (seed n : Nat) : List Nat × List Nat :=
  ((permutationOf seed n).drop (nTest n), (permutationOf seed n).take (nTest n))

/-- Step 8.1 of the data preparation notebook:
`train, evaluation = train_test_split(stack_overflow_df, test_size=0.2,
random_state=42)`, returning the train rows and the evaluation rows. -/
def train_test_split {α : Type} (rows : List α) (seed : Nat) : List α × List α :=
  ((splitIndices seed rows.length).1.filterMap (fun i => rows[i]?),
    (splitIndices seed rows.length).2.filterMap (fun i => rows[i]?))

/-- Looking up every index of `range` in order reproduces the list. -/
theorem filterMap_getElem_range {α : Type} (rows : List α) :
    (List.range rows.length).filterMap (fun i => rows[i]?) = rows := by
  induction rows with
  | nil => rfl
  | cons x xs ih =>
    rw [List.length_cons, List.range_succ_eq_map, List.filterMap_cons]
    simp only [List.getElem?_cons_zero, List.filterMap_map]
    have hfun : ((fun i => (x :: xs)[i]?) ∘ Nat.succ) = fun i => xs[i]? := by
      funext i
      simp [Function.comp]
    rw [hfun, ih]

/-- Looking up in-range indices never drops an entry. -/
theorem filterMap_getElem_length {α : Type} (rows : List α) (idx : List Nat)
    (h : ∀ i ∈ idx, i < rows.length) :
    (idx.filterMap (fun i => rows[i]?)).length = idx.length := by
  induction idx with
  | nil => rfl
  | cons i is ih =>
    have hi : i < rows.length := h i (List.mem_cons_self i is)
    rw [List.filterMap_cons, List.getElem?_eq_getElem hi]
    rw [List.length_cons, List.length_cons,
      ih (fun j hj => h j (List.mem_cons_of_mem _ hj))]

/-- C10: the 80/20 split with a fixed random state partitions the input —
train and evaluation index sets are disjoint and together are exactly the
row indices, the returned rows together are exactly the input rows, the
evaluation set holds 20% of the rows rounded up and the train set the
remainder — and the split is deterministic: the same input under
`random_state = 42` yields the identical pair of sets. -/
theorem train_test_split_partition {α : Type} (rows rows2 : List α) (seed : Nat)
    (hsame : rows2 = rows) :
    (List.Disjoint (splitIndices seed rows.length).1 (splitIndices seed rows.length).2 ∧
      ((splitIndices seed rows.length).1 ++ (splitIndices seed rows.length).2).Perm
        (List.range rows.length) ∧
      ((train_test_split rows seed).1 ++ (train_test_split rows seed).2).Perm rows ∧
      (train_test_split rows seed).2.length = (rows.length + 4) / 5 ∧
      (train_test_split rows seed).1.length = rows.length - (rows.length + 4) / 5) ∧
    train_test_split rows2 42 = train_test_split rows 42 := by
  have hperm : (permutationOf seed rows.length).Perm (List.range rows.length) :=
    List.mergeSort_perm _ _
  have hnd : (permutationOf seed rows.length).Nodup :=
    hperm.nodup_iff.mpr (List.nodup_range rows.length)
  have hlen : (permutationOf seed rows.length).length = rows.length := by
    rw [hperm.length_eq, List.length_range]
  have htad : (permutationOf seed rows.length).take (nTest rows.length) ++
      (permutationOf seed rows.length).drop (nTest rows.length)
        = permutationOf seed rows.length :=
    List.take_append_drop _ _
  have hndta : ((permutationOf seed rows.length).take (nTest rows.length) ++
      (permutationOf seed rows.length).drop (nTest rows.length)).Nodup := by
    rw [htad]
    exact hnd
  have hdisj : List.Disjoint ((permutationOf seed rows.length).drop (nTest rows.length))
      ((permutationOf seed rows.length).take (nTest rows.length)) :=
    ((List.nodup_append.mp hndta).2.2).symm
  have hpr : ((splitIndices seed rows.length).1 ++
      (splitIndices seed rows.length).2).Perm (List.range rows.length) := by
    show ((permutationOf seed rows.length).drop (nTest rows.length) ++
      (permutationOf seed rows.length).take (nTest rows.length)).Perm
        (List.range rows.length)
    refine List.Perm.trans List.perm_append_comm ?_
    rw [htad]
    exact hperm
  have hmem : ∀ i ∈ permutationOf seed rows.length, i < rows.length := by
    intro i hi
    exact List.mem_range.mp (hperm.mem_iff.mp hi)
  refine ⟨⟨hdisj, hpr, ?_, ?_, ?_⟩, by rw [hsame]⟩
  · unfold train_test_split
    rw [← List.filterMap_append]
    have h1 : (((splitIndices seed rows.length).1 ++
        (splitIndices seed rows.length).2).filterMap (fun i => rows[i]?)).Perm
        ((List.range rows.length).filterMap (fun i => rows[i]?)) :=
      hpr.filterMap _
    rw [filterMap_getElem_range rows] at h1
    exact h1
  · unfold train_test_split
    rw [filterMap_getElem_length rows _
        (fun i hi => hmem i (List.mem_of_mem_take (by simpa [splitIndices] using hi)))]
    show ((permutationOf seed rows.length).take (nTest rows.length)).length
      = (rows.length + 4) / 5
    rw [List.length_take, hlen]
    unfold nTest
    omega
  · unfold train_test_split
    rw [filterMap_getElem_length rows _
        (fun i hi => hmem i (List.mem_of_mem_drop (by simpa [splitIndices] using hi)))]
    show ((permutationOf seed rows.length).drop (nTest rows.length)).length
      = rows.length - (rows.length + 4) / 5
    rw [List.length_drop, hlen]
    unfold nTest
    rfl

/-- Concrete check of C10 on a five-row input. -/
theorem train_test_split_partition_witness :
    (([10, 20, 30, 40, 50] : List Nat) = [10, 20, 30, 40, 50]) ∧
    ((List.Disjoint (splitIndices 42 ([10, 20, 30, 40, 50] : List Nat).length).1
        (splitIndices 42 ([10, 20, 30, 40, 50] : List Nat).length).2 ∧
      ((splitIndices 42 ([10, 20, 30, 40, 50] : List Nat).length).1 ++
        (splitIndices 42 ([10, 20, 30, 40, 50] : List Nat).length).2).Perm
          (List.range ([10, 20, 30, 40, 50] : List Nat).length) ∧
      ((train_test_split ([10, 20, 30, 40, 50] : List Nat) 42).1 ++
        (train_test_split ([10, 20, 30, 40, 50] : List Nat) 42).2).Perm
          [10, 20, 30, 40, 50] ∧
      (train_test_split ([10, 20, 30, 40, 50] : List Nat) 42).2.length
        = (([10, 20, 30, 40, 50] : List Nat).length + 4) / 5 ∧
      (train_test_split ([10, 20, 30, 40, 50] : List Nat) 42).1.length
        = ([10, 20, 30, 40, 50] : List Nat).length
            - (([10, 20, 30, 40, 50] : List Nat).length + 4) / 5) ∧
    train_test_split ([10, 20, 30, 40, 50] : List Nat) 42
      = train_test_split ([10, 20, 30, 40, 50] : List Nat) 42) :=
  ⟨rfl, train_test_split_partition [10, 20, 30, 40, 50] [10, 20, 30, 40, 50] 42 rfl⟩

end LLMOps
